import Mathlib

/-!
Verification development for the net-parser-rs packet-capture decoder.

The Rust sources shallow-embedded here are src/lib.rs (record-loop driver),
src/layer2/ethernet.rs (Ethernet II with stacked VLAN tags) and
src/layer3/ipv6.rs (IPv6 with next-header chain walk).  Byte buffers are
modelled as `List Nat`, nom results as `Except` over an error type mirroring
nom::Err, and fallible flow projection as `Except ErrorKind`.  Parts of the
crate that are only declared or called from these files (record.rs, the L4
decoders, layer3/mod.rs, layer3/ipv4.rs) are modelled from the spec and say
so in their doc comments.
-/

namespace NetParser

/-- Mirror of nom::Needed: how many more bytes a streaming parser wanted. -/
inductive Needed where
  | unknown : Needed
  | size (n : Nat) : Needed
deriving DecidableEq, Repr

/-- Mirror of nom::Err (simple_errors): Incomplete, Error and Failure. The
error kinds carried by Error/Failure are dropped, they are not inspected by
the embedded code. -/
inductive NomErr where
  | incomplete (needed : Needed) : NomErr
  | error : NomErr
  | failure : NomErr
deriving DecidableEq, Repr

/-- Mirror of nom::IResult over byte slices: either the remaining input and
a value, or a nom error. -/
abbrev IResult (α : Type) : Type := Except NomErr (List Nat × α)

/-- nom be_u8: one byte, big-endian (trivially). -/
def be_u8 (input : List Nat) : IResult Nat :=
  match input with
  | b :: rest => Except.ok (rest, b)
  | [] => Except.error (NomErr.incomplete (Needed.size 1))

/-- nom be_u16: two bytes, big-endian. -/
def be_u16 (input : List Nat) : IResult Nat :=
  match input with
  | b0 :: b1 :: rest => Except.ok (rest, 256 * b0 + b1)
  | _ => Except.error (NomErr.incomplete (Needed.size 2))

/-- nom take!(cnt): split off the first cnt bytes or report Incomplete. -/
def take (cnt : Nat) (input : List Nat) : IResult (List Nat) :=
  if cnt ≤ input.length then Except.ok (input.drop cnt, input.take cnt)
  else Except.error (NomErr.incomplete (Needed.size cnt))

/-- MacAddress from common.rs: six raw bytes. -/
abbrev MacAddress := List Nat

/-- Vlan from common.rs: a 16-bit VLAN identifier. -/
abbrev Vlan := Nat

/-- Tagged IP address union, mirroring std::net::IpAddr as used by the crate. -/
inductive IpAddr where
  | V4 (bytes : List Nat) : IpAddr
  | V6 (bytes : List Nat) : IpAddr
deriving DecidableEq, Repr

/-- layer2/ethernet.rs Layer3Id: EtherTypes the crate recognises as L3. -/
inductive Layer3Id where
  | Lldp | IPv4 | IPv6 | Arp
deriving DecidableEq, Repr

/-- layer2/ethernet.rs VlanTypeId: the two VLAN tag protocol identifiers. -/
inductive VlanTypeId where
  | VlanTagId | ProviderBridging
deriving DecidableEq, Repr

/-- layer2/ethernet.rs EthernetTypeId: terminal type of an Ethernet frame.
Note the enum has no Unknown variant. -/
inductive EthernetTypeId where
  | PayloadLength (n : Nat) : EthernetTypeId
  | Vlan (v : VlanTypeId) : EthernetTypeId
  | L3 (id : Layer3Id) : EthernetTypeId
deriving DecidableEq, Repr

/-- EthernetTypeId::new from layer2/ethernet.rs: classify a 16-bit type
value; unrecognised values above 1500 yield None (after a debug log). -/
def EthernetTypeId.new (vlan : Nat) : Option EthernetTypeId :=
  if vlan = 0x8100 then some (EthernetTypeId.Vlan VlanTypeId.VlanTagId)
  else if vlan = 0x88a8 then some (EthernetTypeId.Vlan VlanTypeId.ProviderBridging)
  else if vlan = 0x88cc then some (EthernetTypeId.L3 Layer3Id.Lldp)
  else if vlan = 0x0800 then some (EthernetTypeId.L3 Layer3Id.IPv4)
  else if vlan = 0x86dd then some (EthernetTypeId.L3 Layer3Id.IPv6)
  else if vlan = 0x0806 then some (EthernetTypeId.L3 Layer3Id.Arp)
  else if vlan ≤ 1500 then some (EthernetTypeId.PayloadLength vlan)
  else none

/-- layer2/ethernet.rs VlanTag: tag protocol id plus the 4 raw bytes the
parser slices off after the TPID. -/
structure VlanTag where
  vlan_type : VlanTypeId
  value : List Nat
deriving DecidableEq, Repr

/-- VlanTag::vlan from layer2/ethernet.rs: a raw reinterpretation (std::mem::transmute) of bytes 2-3
of the stored value to u16.  The transmute is host-endianness dependent; the
host is modelled as little-endian (x86), so byte 2 is the low byte. -/
def VlanTag.vlan (t : VlanTag) : Vlan :=
  t.value.getD 2 0 + 256 * t.value.getD 3 0

/-- layer2/ethernet.rs Ethernet: a decoded Ethernet II frame. -/
structure Ethernet where
  dst_mac : MacAddress
  src_mac : MacAddress
  ether_type : EthernetTypeId
  vlans : List VlanTag
  payload : List Nat
deriving DecidableEq, Repr

/-- Ethernet::vlans_to_vlan: the vlan value of the first (outermost) tag,
or 0 when the list is empty. -/
def Ethernet.vlans_to_vlan (vlans : List VlanTag) : Vlan :=
  ((vlans.head?).map VlanTag.vlan).getD 0

/-- Ethernet::vlan accessor. -/
def Ethernet.vlan (e : Ethernet) : Vlan :=
  Ethernet.vlans_to_vlan e.vlans

/-- Ethernet::parse_vlan_tag from layer2/ethernet.rs, with the mutually
recursive Ethernet::parse_with_existing_vlan_tag inlined as the
VLAN-match arm (it reads the 16-bit type; a VLAN TPID slices 4 more bytes,
appends the tag and loops; any other recognised type is terminal and the
whole rest of the buffer becomes the payload; an unrecognised type is a
map_opt error). -/
def Ethernet.parse_vlan_tag : List Nat → MacAddress → MacAddress → List VlanTag → IResult Ethernet
  | b0 :: b1 :: rest, dst_mac, src_mac, agg =>
    match EthernetTypeId.new (256 * b0 + b1) with
    | some (EthernetTypeId.Vlan vlan_type_id) =>
      match rest with
      | v0 :: v1 :: v2 :: v3 :: rest2 =>
        Ethernet.parse_vlan_tag rest2 dst_mac src_mac
          (agg ++ [{ vlan_type := vlan_type_id, value := [v0, v1, v2, v3] }])
      | _ => Except.error (NomErr.incomplete (Needed.size 4))
    | some not_vlan =>
      Except.ok ([], { dst_mac := dst_mac, src_mac := src_mac, ether_type := not_vlan,
                       vlans := agg, payload := rest })
    | none => Except.error NomErr.error
  | _, _, _, _ => Except.error (NomErr.incomplete (Needed.size 2))

/-- Ethernet::parse from layer2/ethernet.rs: two 6-byte MAC addresses, then
the VLAN/type loop. -/
def Ethernet.parse (input : List Nat) : IResult Ethernet :=
  match take 6 input with
  | Except.error e => Except.error e
  | Except.ok (rem1, dst_mac) =>
    match take 6 rem1 with
    | Except.error e => Except.error e
    | Except.ok (rem2, src_mac) => Ethernet.parse_vlan_tag rem2 dst_mac src_mac []

/-- Modelled from the spec: InternetProtocolId lives in src/layer3/mod.rs,
which is not among the provided sources.  Spec 4.6 names the extension
types (Hop-by-Hop 0, Routing 43, Fragment 44, Destination Options 60,
AH 51, ESP 50, Mobility 135) and TCP/UDP as the terminal L4 protocols. -/
inductive InternetProtocolId where
  | Tcp | Udp
  | HopByHop | Routing | Fragment | DestinationOptions
  | AuthenticationHeader | EncapsulatingSecurityPayload | Mobility
deriving DecidableEq, Repr

/-- Modelled from the spec: InternetProtocolId::new (src/layer3/mod.rs is
not among the provided sources) maps the protocol byte to a known protocol,
None otherwise. -/
def InternetProtocolId.new (value : Nat) : Option InternetProtocolId :=
  if value = 0 then some InternetProtocolId.HopByHop
  else if value = 6 then some InternetProtocolId.Tcp
  else if value = 17 then some InternetProtocolId.Udp
  else if value = 43 then some InternetProtocolId.Routing
  else if value = 44 then some InternetProtocolId.Fragment
  else if value = 50 then some InternetProtocolId.EncapsulatingSecurityPayload
  else if value = 51 then some InternetProtocolId.AuthenticationHeader
  else if value = 60 then some InternetProtocolId.DestinationOptions
  else if value = 135 then some InternetProtocolId.Mobility
  else none

/-- Modelled from the spec: InternetProtocolId::has_next_option
(src/layer3/mod.rs is not among the provided sources) is true exactly on
the extension-header protocols of spec 4.6. -/
def InternetProtocolId.has_next_option : InternetProtocolId → Bool
  | InternetProtocolId.Tcp => false
  | InternetProtocolId.Udp => false
  | _ => true

/-- layer3/ipv6.rs IPv6: the decoded value keeps addresses, the terminal
protocol and the payload bytes. -/
structure IPv6 where
  dst_ip : IpAddr
  src_ip : IpAddr
  protocol : InternetProtocolId
  payload : List Nat
deriving DecidableEq, Repr

/-- IPv6::parse_next_header from layer3/ipv6.rs: while the current
next-header value is an extension type, consume exactly one byte and read
it as the new next-header value; at a terminal protocol consume 1 byte
(hop limit), two 16-byte addresses and then exactly payload_length
payload bytes. -/
def IPv6.parse_next_header (input : List Nat) (payload_length : Nat)
    (next_header : InternetProtocolId) : IResult IPv6 :=
  if InternetProtocolId.has_next_option next_header = true then
    match input with
    | b :: rem =>
      match InternetProtocolId.new b with
      | some h => IPv6.parse_next_header rem payload_length h
      | none => Except.error NomErr.error
    | [] => Except.error (NomErr.incomplete (Needed.size 1))
  else
    match take 1 input with
    | Except.error e => Except.error e
    | Except.ok (r1, _) =>
      match take 16 r1 with
      | Except.error e => Except.error e
      | Except.ok (r2, src) =>
        match take 16 r2 with
        | Except.error e => Except.error e
        | Except.ok (r3, dst) =>
          match take payload_length r3 with
          | Except.error e => Except.error e
          | Except.ok (r4, payload) =>
            Except.ok (r4, { dst_ip := IpAddr.V6 dst, src_ip := IpAddr.V6 src,
                             protocol := next_header, payload := payload })

/-- IPv6::parse_ipv6 from layer3/ipv6.rs: skip 3 bytes (rest of version,
traffic class, flow label), read the 16-bit payload length and the
next-header byte (map_opt through InternetProtocolId::new), then walk the
chain. -/
def IPv6.parse_ipv6 (input : List Nat) : IResult IPv6 :=
  match take 3 input with
  | Except.error e => Except.error e
  | Except.ok (r1, _) =>
    match be_u16 r1 with
    | Except.error e => Except.error e
    | Except.ok (r2, payload_length) =>
      match be_u8 r2 with
      | Except.error e => Except.error e
      | Except.ok (r3, b) =>
        match InternetProtocolId.new b with
        | some next_header => IPv6.parse_next_header r3 payload_length next_header
        | none => Except.error NomErr.error

/-- IPv6::parse from layer3/ipv6.rs: read one byte, require its high
nibble to be 6, then parse the rest of the packet. -/
def IPv6.parse (input : List Nat) : IResult IPv6 :=
  match be_u8 input with
  | Except.error e => Except.error e
  | Except.ok (rem, length_check) =>
    if length_check / 16 = 6 then IPv6.parse_ipv6 rem
    else Except.error NomErr.error

/-- ErrorKind from lib.rs (error_chain): the kinds the embedded code can
produce.  FlowParse carries its chained cause, as chain_err does. -/
inductive ErrorKind where
  | FlowParse (cause : ErrorKind) : ErrorKind
  | NomIncomplete : ErrorKind
  | NomError : ErrorKind
  | IncompleteParse (amt : Nat) : ErrorKind
  | EthernetType (value : EthernetTypeId) : ErrorKind
  | IPv4Type (value : InternetProtocolId) : ErrorKind
deriving DecidableEq, Repr

/-- From<nom::Err> for Error in lib.rs: Incomplete becomes NomIncomplete,
Error/Failure become NomError. -/
def ErrorKind.ofNom : NomErr → ErrorKind
  | NomErr.incomplete _ => ErrorKind.NomIncomplete
  | NomErr.error => ErrorKind.NomError
  | NomErr.failure => ErrorKind.NomError

/-- Modelled from the spec: Tcp (src/layer4/tcp.rs is not among the
provided sources).  Only the fields the flow projection reads. -/
structure Tcp where
  src_port : Nat
  dst_port : Nat
  payload : List Nat
deriving DecidableEq, Repr

/-- Modelled from the spec: Tcp::parse (src/layer4/tcp.rs is not among the
provided sources).  Spec 4.7: ports, seq, ack, data offset high nibble of
byte 12 in 4-byte words (BadDataOffset when below 5), fixed fields,
options, payload = remainder, so the remaining slice is always empty. -/
def Tcp.parse (input : List Nat) : IResult Tcp :=
  if 20 ≤ input.length then
    if 5 ≤ input.getD 12 0 / 16 then
      if 4 * (input.getD 12 0 / 16) ≤ input.length then
        Except.ok ([], { src_port := 256 * input.getD 0 0 + input.getD 1 0,
                         dst_port := 256 * input.getD 2 0 + input.getD 3 0,
                         payload := input.drop (4 * (input.getD 12 0 / 16)) })
      else Except.error (NomErr.incomplete (Needed.size (4 * (input.getD 12 0 / 16))))
    else Except.error NomErr.error
  else Except.error (NomErr.incomplete (Needed.size 20))

/-- Modelled from the spec: Udp (src/layer4/udp.rs is not among the
provided sources). -/
structure Udp where
  src_port : Nat
  dst_port : Nat
  payload : List Nat
deriving DecidableEq, Repr

/-- Modelled from the spec: Udp::parse (src/layer4/udp.rs is not among the
provided sources).  Spec 4.7: ports, 16-bit length (BadLength when below
8, Incomplete when it exceeds the buffer), checksum, payload of
length - 8 bytes; bytes past the declared length are left unconsumed. -/
def Udp.parse (input : List Nat) : IResult Udp :=
  if 8 ≤ input.length then
    if 8 ≤ 256 * input.getD 4 0 + input.getD 5 0 then
      if 256 * input.getD 4 0 + input.getD 5 0 ≤ input.length then
        Except.ok (input.drop (256 * input.getD 4 0 + input.getD 5 0),
                   { src_port := 256 * input.getD 0 0 + input.getD 1 0,
                     dst_port := 256 * input.getD 2 0 + input.getD 3 0,
                     payload := (input.drop 8).take (256 * input.getD 4 0 + input.getD 5 0 - 8) })
      else Except.error (NomErr.incomplete (Needed.size (256 * input.getD 4 0 + input.getD 5 0)))
    else Except.error NomErr.error
  else Except.error (NomErr.incomplete (Needed.size 8))

/-- Modelled from the spec: IPv4 (src/layer3/ipv4.rs is not among the
provided sources).  Only the fields the flow projection reads. -/
structure IPv4 where
  protocol : InternetProtocolId
  src_ip : List Nat
  dst_ip : List Nat
  payload : List Nat
deriving DecidableEq, Repr

/-- Modelled from the spec: IPv4::parse (src/layer3/ipv4.rs is not among
the provided sources).  Spec 4.5: version nibble must be 4, IHL at least
5, total length bounds the buffer (Incomplete otherwise); the payload is
the total_length - IHL*4 bytes after the header and anything past
total_length is left unconsumed. -/
def IPv4.parse (input : List Nat) : IResult IPv4 :=
  match input with
  | [] => Except.error (NomErr.incomplete (Needed.size 1))
  | b0 :: _ =>
    if b0 / 16 = 4 then
      if 5 ≤ b0 % 16 then
        if 256 * input.getD 2 0 + input.getD 3 0 ≤ input.length then
          if 4 * (b0 % 16) ≤ 256 * input.getD 2 0 + input.getD 3 0 then
            match InternetProtocolId.new (input.getD 9 0) with
            | some protocol =>
              Except.ok (input.drop (256 * input.getD 2 0 + input.getD 3 0),
                { protocol := protocol,
                  src_ip := (input.drop 12).take 4,
                  dst_ip := (input.drop 16).take 4,
                  payload := (input.drop (4 * (b0 % 16))).take
                    (256 * input.getD 2 0 + input.getD 3 0 - 4 * (b0 % 16)) })
            | none => Except.error NomErr.error
          else Except.error NomErr.error
        else Except.error (NomErr.incomplete (Needed.size (256 * input.getD 2 0 + input.getD 3 0)))
      else Except.error NomErr.error
    else Except.error NomErr.error

/-- Layer4FlowInfo from layer4/mod.rs: source and destination port. -/
structure Layer4FlowInfo where
  src_port : Nat
  dst_port : Nat
deriving DecidableEq, Repr

/-- Layer3FlowInfo from layer3/mod.rs: addresses plus the embedded L4 info. -/
structure Layer3FlowInfo where
  src_ip : IpAddr
  dst_ip : IpAddr
  layer4 : Layer4FlowInfo
deriving DecidableEq, Repr

/-- Layer2FlowInfo from layer2/mod.rs: MACs, outermost VLAN id and the
embedded L3 info. -/
structure Layer2FlowInfo where
  src_mac : MacAddress
  dst_mac : MacAddress
  vlan : Vlan
  layer3 : Layer3FlowInfo
deriving DecidableEq, Repr

/-- Modelled from the spec: TryFrom<Tcp> for Layer4FlowInfo
(src/layer4/tcp.rs is not among the provided sources): it projects the
two ports. -/
def Layer4FlowInfo.tryFromTcp (l4 : Tcp) : Except ErrorKind Layer4FlowInfo :=
  Except.ok { src_port := l4.src_port, dst_port := l4.dst_port }

/-- Modelled from the spec: TryFrom<Udp> for Layer4FlowInfo
(src/layer4/udp.rs is not among the provided sources): it projects the
two ports. -/
def Layer4FlowInfo.tryFromUdp (l4 : Udp) : Except ErrorKind Layer4FlowInfo :=
  Except.ok { src_port := l4.src_port, dst_port := l4.dst_port }

/-- TryFrom<IPv6> for Layer3FlowInfo from layer3/ipv6.rs: TCP and UDP run
the matching L4 decoder over the IPv6 payload and then require an empty
remainder (IncompleteParse with the leftover count otherwise); every
other terminal protocol is rejected with ErrorKind::IPv4Type. -/
def Layer3FlowInfo.tryFrom (value : IPv6) : Except ErrorKind Layer3FlowInfo :=
  match
    (match value.protocol with
     | InternetProtocolId.Tcp =>
       match Tcp.parse value.payload with
       | Except.error e => Except.error (ErrorKind.FlowParse (ErrorKind.ofNom e))
       | Except.ok (rem, l4) =>
         if rem.isEmpty then Layer4FlowInfo.tryFromTcp l4
         else Except.error (ErrorKind.IncompleteParse rem.length)
     | InternetProtocolId.Udp =>
       match Udp.parse value.payload with
       | Except.error e => Except.error (ErrorKind.FlowParse (ErrorKind.ofNom e))
       | Except.ok (rem, l4) =>
         if rem.isEmpty then Layer4FlowInfo.tryFromUdp l4
         else Except.error (ErrorKind.IncompleteParse rem.length)
     | other => Except.error (ErrorKind.IPv4Type other)) with
  | Except.error e => Except.error e
  | Except.ok l4 =>
    Except.ok { src_ip := value.src_ip, dst_ip := value.dst_ip, layer4 := l4 }

/-- Modelled from the spec: TryFrom<IPv4> for Layer3FlowInfo
(src/layer3/ipv4.rs is not among the provided sources).  Spec 4.8: select
the L4 decoder on the protocol (TCP/UDP only), check that no bytes remain
in the handed-down region (IncompleteParse otherwise). -/
def Layer3FlowInfo.tryFromIPv4 (value : IPv4) : Except ErrorKind Layer3FlowInfo :=
  match
    (match value.protocol with
     | InternetProtocolId.Tcp =>
       match Tcp.parse value.payload with
       | Except.error e => Except.error (ErrorKind.FlowParse (ErrorKind.ofNom e))
       | Except.ok (rem, l4) =>
         if rem.isEmpty then Layer4FlowInfo.tryFromTcp l4
         else Except.error (ErrorKind.IncompleteParse rem.length)
     | InternetProtocolId.Udp =>
       match Udp.parse value.payload with
       | Except.error e => Except.error (ErrorKind.FlowParse (ErrorKind.ofNom e))
       | Except.ok (rem, l4) =>
         if rem.isEmpty then Layer4FlowInfo.tryFromUdp l4
         else Except.error (ErrorKind.IncompleteParse rem.length)
     | other => Except.error (ErrorKind.IPv4Type other)) with
  | Except.error e => Except.error e
  | Except.ok l4 =>
    Except.ok { src_ip := IpAddr.V4 value.src_ip, dst_ip := IpAddr.V4 value.dst_ip, layer4 := l4 }

/-- TryFrom<Ethernet> for Layer2FlowInfo from layer2/ethernet.rs: only the
IPv4 and IPv6 terminal EtherTypes run an L3 decode over the frame payload,
each followed by the empty-remainder check (IncompleteParse with the
leftover count otherwise); every other terminal type is rejected with
ErrorKind::EthernetType. -/
def Layer2FlowInfo.tryFrom (value : Ethernet) : Except ErrorKind Layer2FlowInfo :=
  match
    (match value.ether_type with
     | EthernetTypeId.L3 Layer3Id.IPv4 =>
       match IPv4.parse value.payload with
       | Except.error e => Except.error (ErrorKind.FlowParse (ErrorKind.ofNom e))
       | Except.ok (rem, l3) =>
         if rem.isEmpty then Layer3FlowInfo.tryFromIPv4 l3
         else Except.error (ErrorKind.IncompleteParse rem.length)
     | EthernetTypeId.L3 Layer3Id.IPv6 =>
       match IPv6.parse value.payload with
       | Except.error e => Except.error (ErrorKind.FlowParse (ErrorKind.ofNom e))
       | Except.ok (rem, l3) =>
         if rem.isEmpty then Layer3FlowInfo.tryFrom l3
         else Except.error (ErrorKind.IncompleteParse rem.length)
     | other => Except.error (ErrorKind.EthernetType other)) with
  | Except.error e => Except.error e
  | Except.ok l3 =>
    Except.ok { src_mac := value.src_mac, dst_mac := value.dst_mac,
                vlan := Ethernet.vlans_to_vlan value.vlans, layer3 := l3 }

/-- Endianness as in nom: selected by the pcap magic number. -/
inductive Endianness where
  | Big | Little
deriving DecidableEq, Repr

/-- Read four bytes as a 32-bit integer with the given endianness. -/
def readU32 (endianness : Endianness) (bytes : List Nat) : Nat :=
  match endianness with
  | Endianness.Big =>
    ((bytes.getD 0 0 * 256 + bytes.getD 1 0) * 256 + bytes.getD 2 0) * 256 + bytes.getD 3 0
  | Endianness.Little =>
    ((bytes.getD 3 0 * 256 + bytes.getD 2 0) * 256 + bytes.getD 1 0) * 256 + bytes.getD 0 0

/-- Modelled from the spec: PcapRecord (src/record.rs is not among the
provided sources).  Spec 4.3: timestamp seconds and fraction, captured
and original length, frame bytes. -/
structure PcapRecord where
  ts_seconds : Nat
  ts_frac : Nat
  incl_len : Nat
  orig_len : Nat
  frame : List Nat
deriving DecidableEq, Repr

/-- Modelled from the spec: PcapRecord::parse (src/record.rs is not among
the provided sources).  Spec 4.3: read ts_seconds (4), ts_frac (4),
incl_len (4), orig_len (4) with the supplied endianness; when incl_len
exceeds the remaining buffer fail with Incomplete(needed); otherwise
slice off exactly incl_len bytes as the frame and return the rest. -/
def PcapRecord.parse (input : List Nat) (endianness : Endianness) : IResult PcapRecord :=
  if 16 ≤ input.length then
    if readU32 endianness ((input.drop 8).take 4) ≤ (input.drop 16).length then
      Except.ok ((input.drop 16).drop (readU32 endianness ((input.drop 8).take 4)),
        { ts_seconds := readU32 endianness (input.take 4),
          ts_frac := readU32 endianness ((input.drop 4).take 4),
          incl_len := readU32 endianness ((input.drop 8).take 4),
          orig_len := readU32 endianness ((input.drop 12).take 4),
          frame := (input.drop 16).take (readU32 endianness ((input.drop 8).take 4)) })
    else Except.error (NomErr.incomplete
      (Needed.size (readU32 endianness ((input.drop 8).take 4) - (input.drop 16).length)))
  else Except.error (NomErr.incomplete (Needed.size 4))

/-- The record loop of CaptureParser::parse_records from lib.rs, taken
abstractly in the record parser (PcapRecord::parse lives in src/record.rs,
which is not among the provided sources).  The loop parses one record,
appends it and continues on the returned rest; an Incomplete error breaks
the loop gracefully, returning the records decoded so far; any other
error is returned to the caller.  The hp argument records that a
successful record parse strictly consumes input, which is what makes the
Rust loop terminate. -/
def parse_records_loop (parse : List Nat → IResult PcapRecord)
    (hp : ∀ i rem r, parse i = Except.ok (rem, r) → rem.length < i.length)
    (current : List Nat) (records : List PcapRecord) :
    Except NomErr (List Nat × List PcapRecord) :=
  match h : parse current with
  | Except.ok (rem, r) => parse_records_loop parse hp rem (records ++ [r])
  | Except.error (NomErr.incomplete _) => Except.ok (current, records)
  | Except.error e => Except.error e
termination_by current.length
decreasing_by exact hp current _ _ h

/-- CaptureParser::parse_records from lib.rs, instantiating the loop with
the (spec-modelled) record parser at the given endianness. -/
def CaptureParser.parse_records (input : List Nat) (endianness : Endianness) :
    Except NomErr (List Nat × List PcapRecord) :=
  parse_records_loop (fun i => PcapRecord.parse i endianness)
    (fun i rem r h => by
      simp only [PcapRecord.parse] at h
      split at h
      · split at h
        · cases h
          simp only [List.length_drop]
          omega
        · exact Except.noConfusion h
      · exact Except.noConfusion h)
    input []

/-! Concrete packets and decoded values used by the claim theorems. -/

/-- A 16-byte source address used by the concrete packets below. -/
def srcAddrBytes : List Nat := [1, 2, 3, 4, 5, 6, 7, 8, 9, 10, 11, 12, 13, 14, 15, 15]

/-- A 16-byte destination address used by the concrete packets below. -/
def dstAddrBytes : List Nat := [15, 0, 1, 2, 3, 4, 5, 6, 7, 8, 9, 10, 11, 12, 13, 14]

/-- A 51-byte IPv6 packet laid out the way the source walks it: fixed
fields through the next-header byte (payload length 10, next header 0 =
Hop-by-Hop), then a single byte 6 (TCP) that the chain walk consumes as
the new next-header value, then hop limit, the two addresses and 10
payload bytes. -/
def c1_input : List Nat :=
  [0x60, 0, 0, 0, 0, 10, 0, 6, 255] ++ srcAddrBytes ++ dstAddrBytes
    ++ [1, 2, 3, 4, 5, 6, 7, 8, 9, 10]

/-- The value IPv6::parse produces on c1_input. -/
def c1_value : IPv6 :=
  { dst_ip := IpAddr.V6 dstAddrBytes, src_ip := IpAddr.V6 srcAddrBytes,
    protocol := InternetProtocolId.Tcp, payload := [1, 2, 3, 4, 5, 6, 7, 8, 9, 10] }

/-- A 20-byte TCP header (ports 50871 and 80, data offset 5, no payload). -/
def c2_tcp_header : List Nat :=
  [0xC6, 0xB7, 0x00, 0x50, 0, 0, 0, 1, 0, 0, 0, 2, 0x50, 0x00, 0, 0, 0, 0, 0, 0]

/-- A well-formed Ethernet/IPv6/TCP frame: MACs, EtherType 0x86dd, the
IPv6 fields with payload length 20 covering exactly the TCP header. -/
def c2_base_frame : List Nat :=
  [1, 2, 3, 4, 5, 6, 255, 254, 253, 252, 251, 250, 0x86, 0xdd]
    ++ ([0x60, 0, 0, 0, 0, 20, 6, 0x40] ++ srcAddrBytes ++ dstAddrBytes ++ c2_tcp_header)

/-- c2_base_frame with one extra byte appended to the IP payload region. -/
def c2_extra_frame : List Nat := c2_base_frame ++ [0]

/-- The Ethernet value parsed from c2_base_frame. -/
def c2_base_eth : Ethernet :=
  { dst_mac := [1, 2, 3, 4, 5, 6], src_mac := [255, 254, 253, 252, 251, 250],
    ether_type := EthernetTypeId.L3 Layer3Id.IPv6, vlans := [],
    payload := [0x60, 0, 0, 0, 0, 20, 6, 0x40] ++ srcAddrBytes ++ dstAddrBytes ++ c2_tcp_header }

/-- The Ethernet value parsed from c2_extra_frame. -/
def c2_extra_eth : Ethernet :=
  { c2_base_eth with payload := c2_base_eth.payload ++ [0] }

/-- An Ethernet value whose IPv6 payload (payload length 0) carries one
trailing byte, used to instantiate the general residue theorem. -/
def c2w_eth : Ethernet :=
  { dst_mac := [1, 2, 3, 4, 5, 6], src_mac := [7, 8, 9, 10, 11, 12],
    ether_type := EthernetTypeId.L3 Layer3Id.IPv6, vlans := [],
    payload := ([0x60, 0, 0, 0, 0, 0, 6, 0x40] ++ srcAddrBytes ++ dstAddrBytes) ++ [0] }

/-- The IPv6 value parsed from the first 40 bytes of the payload of c2w_eth. -/
def c2w_v : IPv6 :=
  { dst_ip := IpAddr.V6 dstAddrBytes, src_ip := IpAddr.V6 srcAddrBytes,
    protocol := InternetProtocolId.Tcp, payload := [] }

/-- An Ethernet frame whose terminal type bytes are 0x9999: above 1500 and
not a VLAN TPID nor a recognised L3 EtherType. -/
def c4_frame : List Nat :=
  [1, 2, 3, 4, 5, 6, 255, 254, 253, 252, 251, 250, 0x99, 0x99, 1, 2, 3]

/-- An Ethernet frame with one 802.1Q tag whose 4-byte tag value is
[0, 5, 0, 0] (TCI bytes 0-1 encode VID 5), followed by the IPv4
EtherType as the terminal type and an empty payload. -/
def c5_frame : List Nat :=
  [1, 2, 3, 4, 5, 6, 255, 254, 253, 252, 251, 250, 0x81, 0x00, 0x00, 0x05, 0x00, 0x00,
   0x08, 0x00]

/-- The Ethernet value parsed from c5_frame. -/
def c5_eth : Ethernet :=
  { dst_mac := [1, 2, 3, 4, 5, 6], src_mac := [255, 254, 253, 252, 251, 250],
    ether_type := EthernetTypeId.L3 Layer3Id.IPv4,
    vlans := [{ vlan_type := VlanTypeId.VlanTagId, value := [0, 5, 0, 0] }], payload := [] }

/-- An Ethernet value with terminal type ARP, used to instantiate the
unsupported-L3 theorem. -/
def c6w_eth : Ethernet :=
  { dst_mac := [1, 2, 3, 4, 5, 6], src_mac := [7, 8, 9, 10, 11, 12],
    ether_type := EthernetTypeId.L3 Layer3Id.Arp, vlans := [], payload := [1, 2] }

/-- An IPv6 value whose terminal protocol is Hop-by-Hop (neither TCP nor
UDP), used to instantiate the unsupported-L4 theorem. -/
def c6w_v : IPv6 :=
  { dst_ip := IpAddr.V6 dstAddrBytes, src_ip := IpAddr.V6 srcAddrBytes,
    protocol := InternetProtocolId.HopByHop, payload := [9] }

/-- An Ethernet frame with one VLAN tag, terminal type ARP and a 2-byte
payload. -/
def c8w_frame : List Nat :=
  [2, 4, 6, 8, 10, 12, 1, 3, 5, 7, 9, 11, 0x81, 0x00, 0, 7, 0, 0, 0x08, 0x06, 42, 43]

/-- The Ethernet value parsed from c8w_frame. -/
def c8w_eth : Ethernet :=
  { dst_mac := [2, 4, 6, 8, 10, 12], src_mac := [1, 3, 5, 7, 9, 11],
    ether_type := EthernetTypeId.L3 Layer3Id.Arp,
    vlans := [{ vlan_type := VlanTypeId.VlanTagId, value := [0, 7, 0, 0] }],
    payload := [42, 43] }

/-- The 18-byte Ethernet II frame of spec scenario S2: type bytes 0x0004
and payload 01 02 03 04. -/
def c9_frame : List Nat :=
  [1, 2, 3, 4, 5, 6, 255, 254, 253, 252, 251, 250, 0, 4, 1, 2, 3, 4]

/-- A 40-byte IPv6 packet with payload length 0 and next header 17 (UDP). -/
def c10_input : List Nat :=
  [0x60, 0, 0, 0, 0, 0, 17, 0x40] ++ srcAddrBytes ++ dstAddrBytes

/-- The IPv6 value parsed from c10_input. -/
def c10_value : IPv6 :=
  { dst_ip := IpAddr.V6 dstAddrBytes, src_ip := IpAddr.V6 srcAddrBytes,
    protocol := InternetProtocolId.Udp, payload := [] }

/-! Helper lemmas shared by the claim theorems. -/

/-- Successful take returns the dropped rest and the taken prefix, and
implies the requested count fits. -/
theorem take_ok {cnt : Nat} {input rem t : List Nat}
    (h : take cnt input = Except.ok (rem, t)) :
    rem = input.drop cnt ∧ t = input.take cnt ∧ cnt ≤ input.length := by
  simp only [take] at h
  split at h
  case isTrue hc => cases h; exact ⟨rfl, rfl, hc⟩
  case isFalse => exact Except.noConfusion h

/-- Successful be_u16 reads the first two bytes big-endian and drops them. -/
theorem be_u16_ok {input rem : List Nat} {value : Nat}
    (h : be_u16 input = Except.ok (rem, value)) :
    value = 256 * input.getD 0 0 + input.getD 1 0 ∧ rem = input.drop 2 := by
  match input with
  | [] => exact Except.noConfusion h
  | [b] => exact Except.noConfusion h
  | b0 :: b1 :: rest =>
    simp only [be_u16] at h
    cases h
    exact ⟨rfl, rfl⟩

/-- getD after a drop reads at the shifted index. -/
theorem getD_drop (l : List Nat) (n m d : Nat) :
    (l.drop n).getD m d = l.getD (n + m) d := by
  induction l generalizing n with
  | nil => simp
  | cons a t ih =>
    cases n with
    | zero => simp
    | succ k =>
      have : k + 1 + m = (k + m) + 1 := by omega
      rw [List.drop_succ_cons, ih k, this, List.getD_cons_succ]

/-- The chain walk of IPv6::parse_next_header always hands back a payload
of exactly payload_length bytes, however many extension steps it takes. -/
theorem parse_next_header_payload_length :
    ∀ (input : List Nat) (p : Nat) (nh : InternetProtocolId) (rem : List Nat) (v : IPv6),
      IPv6.parse_next_header input p nh = Except.ok (rem, v) → v.payload.length = p := by
  intro input
  induction input with
  | nil =>
    intro p nh rem v h
    simp only [IPv6.parse_next_header] at h
    split at h
    · exact Except.noConfusion h
    · simp [take] at h
  | cons b rest ih =>
    intro p nh rem v h
    simp only [IPv6.parse_next_header] at h
    split at h
    · cases hnew : InternetProtocolId.new b with
      | none => rw [hnew] at h; exact Except.noConfusion h
      | some h2 => rw [hnew] at h; exact ih p h2 rem v h
    · split at h
      · exact Except.noConfusion h
      · split at h
        · exact Except.noConfusion h
        · split at h
          · exact Except.noConfusion h
          · split at h
            · exact Except.noConfusion h
            · rename_i heq4
              cases h
              obtain ⟨hr4, hpl, hle⟩ := take_ok heq4
              subst hpl
              simp [List.length_take, Nat.min_eq_left hle]

/-- Dropping six and then k elements past six explicit cons cells. -/
theorem drop_six_cons (a b c d e f : Nat) (l : List Nat) (k : Nat) :
    (a :: b :: c :: d :: e :: f :: l).drop (k + 6) = l.drop k := rfl

/-- Successful runs of the VLAN/type loop leave no remaining input, only
grow the tag accumulator, and produce as the payload exactly the bytes
past the 6 bytes each further tag consumed and the 2 terminal type
bytes. -/
theorem parse_vlan_tag_ok :
    ∀ (n : Nat) (input : List Nat), input.length ≤ n →
      ∀ (dst src : MacAddress) (agg : List VlanTag) (rem : List Nat) (e : Ethernet),
        Ethernet.parse_vlan_tag input dst src agg = Except.ok (rem, e) →
          rem = [] ∧ agg.length ≤ e.vlans.length
            ∧ e.payload = input.drop (2 + 6 * (e.vlans.length - agg.length)) := by
  intro n
  induction n with
  | zero =>
    intro input hlen dst src agg rem e h
    have hnil : input = [] := List.length_eq_zero.mp (Nat.le_zero.mp hlen)
    subst hnil
    simp [Ethernet.parse_vlan_tag] at h
  | succ n ih =>
    intro input hlen dst src agg rem e h
    rcases input with _ | ⟨b0, _ | ⟨b1, rest⟩⟩
    · simp [Ethernet.parse_vlan_tag] at h
    · simp [Ethernet.parse_vlan_tag] at h
    · simp only [Ethernet.parse_vlan_tag] at h
      split at h
      · -- VLAN TPID arm: slice 4 bytes and loop
        split at h
        · rename_i v0 v1 v2 v3 rest2
          have hlen2 : rest2.length ≤ n := by
            simp only [List.length_cons] at hlen
            omega
          obtain ⟨hrem, hle, hpl⟩ := ih rest2 hlen2 dst src _ rem e h
          simp only [List.length_append, List.length_cons, List.length_nil] at hle
          refine ⟨hrem, by omega, ?_⟩
          rw [hpl]
          have harith : 2 + 6 * (e.vlans.length - agg.length)
              = (2 + 6 * (e.vlans.length - (agg.length + 1))) + 6 := by omega
          rw [harith, drop_six_cons]
          congr 1
          simp only [List.length_append, List.length_cons, List.length_nil]
        · exact Except.noConfusion h
      · -- terminal type arm: the whole rest becomes the payload
        cases h
        exact ⟨rfl, le_rfl, by simp⟩
      · -- unrecognised type: map_opt error
        exact Except.noConfusion h

/-- Ethernet::parse on two length-6 MAC blocks followed by anything is the
VLAN/type loop on that rest. -/
theorem ethernet_parse_mac_split (dst src rest : List Nat)
    (hd : dst.length = 6) (hs : src.length = 6) :
    Ethernet.parse (dst ++ (src ++ rest)) = Ethernet.parse_vlan_tag rest dst src [] := by
  have h1 : take 6 (dst ++ (src ++ rest)) = Except.ok (src ++ rest, dst) := by
    simp only [take]
    rw [if_pos]
    · rw [← hd, List.drop_left, List.take_left]
    · simp only [List.length_append, hd]
      omega
  have h2 : take 6 (src ++ rest) = Except.ok (rest, src) := by
    simp only [take]
    rw [if_pos]
    · rw [← hs, List.drop_left, List.take_left]
    · simp only [List.length_append, hs]
      omega
  simp only [Ethernet.parse, h1, h2]

/-- One successful step of the record loop appends the record and
continues on the rest. -/
theorem loop_ok (parse : List Nat → IResult PcapRecord)
    (hp : ∀ i rem r, parse i = Except.ok (rem, r) → rem.length < i.length)
    (current : List Nat) (records : List PcapRecord) (rem : List Nat) (r : PcapRecord)
    (h : parse current = Except.ok (rem, r)) :
    parse_records_loop parse hp current records
      = parse_records_loop parse hp rem (records ++ [r]) := by
  rw [parse_records_loop]
  split
  · rename_i a b heq
    rw [h] at heq
    cases heq
    rfl
  · rename_i heq
    rw [h] at heq
    exact Except.noConfusion heq
  · rename_i heq hne
    rw [h] at hne
    exact Except.noConfusion hne

/-- An Incomplete record parse stops the loop gracefully: the records
decoded so far are returned with no error. -/
theorem loop_incomplete (parse : List Nat → IResult PcapRecord)
    (hp : ∀ i rem r, parse i = Except.ok (rem, r) → rem.length < i.length)
    (current : List Nat) (records : List PcapRecord) (needed : Needed)
    (h : parse current = Except.error (NomErr.incomplete needed)) :
    parse_records_loop parse hp current records = Except.ok (current, records) := by
  rw [parse_records_loop]
  split
  · rename_i a b heq
    rw [h] at heq
    exact Except.noConfusion heq
  · rfl
  · rename_i heq hne
    rw [h] at hne
    cases hne
    exact (heq needed rfl).elim

/-- A non-Incomplete record-parse error aborts the loop and is returned
to the caller. -/
theorem loop_abort (parse : List Nat → IResult PcapRecord)
    (hp : ∀ i rem r, parse i = Except.ok (rem, r) → rem.length < i.length)
    (current : List Nat) (records : List PcapRecord) (err : NomErr)
    (h : parse current = Except.error err)
    (hni : ∀ needed, err ≠ NomErr.incomplete needed) :
    parse_records_loop parse hp current records = Except.error err := by
  rw [parse_records_loop]
  split
  · rename_i a b heq
    rw [h] at heq
    exact Except.noConfusion heq
  · rename_i needed heq
    rw [h] at heq
    cases heq
    exact absurd rfl (hni needed)
  · rename_i heq hne
    rw [h] at hne
    cases hne
    rfl

/-- A successful record parse strictly consumes input. -/
theorem pcap_parse_consumes (endianness : Endianness) :
    ∀ i rem r, PcapRecord.parse i endianness = Except.ok (rem, r) → rem.length < i.length := by
  intro i rem r h
  simp only [PcapRecord.parse] at h
  split at h
  · split at h
    · cases h
      simp only [List.length_drop]
      omega
    · exact Except.noConfusion h
  · exact Except.noConfusion h

/-- The record parser either succeeds or reports Incomplete; it has no
hard-error outcome. -/
theorem pcap_parse_cases (i : List Nat) (endianness : Endianness) :
    (∃ rem r, PcapRecord.parse i endianness = Except.ok (rem, r))
      ∨ (∃ needed, PcapRecord.parse i endianness = Except.error (NomErr.incomplete needed)) := by
  simp only [PcapRecord.parse]
  split
  · split
    · exact Or.inl ⟨_, _, rfl⟩
    · exact Or.inr ⟨_, rfl⟩
  · exact Or.inr ⟨_, rfl⟩

/-- The instantiated record loop always terminates successfully, and at
the returned rest the record parser reports Incomplete. -/
theorem loop_total (endianness : Endianness) :
    ∀ (n : Nat)
      (hp : ∀ i rem r, PcapRecord.parse i endianness = Except.ok (rem, r) → rem.length < i.length)
      (input : List Nat), input.length ≤ n → ∀ (records : List PcapRecord),
      ∃ rem recs,
        parse_records_loop (fun i => PcapRecord.parse i endianness) hp input records
          = Except.ok (rem, recs)
        ∧ ∃ needed, PcapRecord.parse rem endianness = Except.error (NomErr.incomplete needed) := by
  intro n
  induction n using Nat.strong_induction_on with
  | _ n ih =>
    intro hp input hlen records
    rcases pcap_parse_cases input endianness with ⟨rem, r, hok⟩ | ⟨needed, hinc⟩
    · have hlt := pcap_parse_consumes endianness input rem r hok
      rw [loop_ok _ hp input records rem r hok]
      exact ih rem.length (by omega) hp rem le_rfl (records ++ [r])
    · rw [loop_incomplete _ hp input records needed hinc]
      exact ⟨input, records, rfl, needed, hinc⟩

/-! Claim theorems. -/

/-- Claim C1, evaluation of the code at the failing input: on the 51-byte
IPv6 packet c1_input, whose next header is Hop-by-Hop (0) followed by the
byte 6 (TCP), IPv6::parse succeeds after consuming exactly one byte for
the extension header and returns a payload of exactly payload_length = 10
bytes.  The claim instead requires the Hop-by-Hop header to be consumed
per its own length encoding (8 bytes at minimum) and the L4 payload to be
payload_length minus the extension bytes. -/
theorem claim_C1 :
    IPv6.parse c1_input = Except.ok ([], c1_value)
      ∧ c1_value.payload.length = 10
      ∧ c1_input.length = 51 := by
  refine ⟨rfl, rfl, rfl⟩

/-- Claim C2: in flow projection, whenever an inner-layer decode over the
region handed down by the outer layer succeeds but leaves n > 0 bytes,
the projection fails with IncompleteParse(n) — stated for both L3 decodes
inside TryFrom Ethernet and both L4 decodes inside TryFrom IPv6 — and, in
particular, appending one extra byte to the well-formed IP payload of
c2_base_frame makes the flow projection fail with IncompleteParse(1). -/
theorem claim_C2 :
    (∀ (e : Ethernet) (rem : List Nat) (l3 : IPv6),
      e.ether_type = EthernetTypeId.L3 Layer3Id.IPv6 →
      IPv6.parse e.payload = Except.ok (rem, l3) → 0 < rem.length →
      Layer2FlowInfo.tryFrom e = Except.error (ErrorKind.IncompleteParse rem.length))
    ∧ (∀ (e : Ethernet) (rem : List Nat) (l3 : IPv4),
      e.ether_type = EthernetTypeId.L3 Layer3Id.IPv4 →
      IPv4.parse e.payload = Except.ok (rem, l3) → 0 < rem.length →
      Layer2FlowInfo.tryFrom e = Except.error (ErrorKind.IncompleteParse rem.length))
    ∧ (∀ (v : IPv6) (rem : List Nat) (l4 : Tcp),
      v.protocol = InternetProtocolId.Tcp →
      Tcp.parse v.payload = Except.ok (rem, l4) → 0 < rem.length →
      Layer3FlowInfo.tryFrom v = Except.error (ErrorKind.IncompleteParse rem.length))
    ∧ (∀ (v : IPv6) (rem : List Nat) (l4 : Udp),
      v.protocol = InternetProtocolId.Udp →
      Udp.parse v.payload = Except.ok (rem, l4) → 0 < rem.length →
      Layer3FlowInfo.tryFrom v = Except.error (ErrorKind.IncompleteParse rem.length))
    ∧ (Ethernet.parse c2_base_frame = Except.ok ([], c2_base_eth)
      ∧ (Layer2FlowInfo.tryFrom c2_base_eth).isOk = true
      ∧ Ethernet.parse c2_extra_frame = Except.ok ([], c2_extra_eth)
      ∧ Layer2FlowInfo.tryFrom c2_extra_eth = Except.error (ErrorKind.IncompleteParse 1)) := by
  refine ⟨?_, ?_, ?_, ?_, rfl, rfl, rfl, rfl⟩
  · intro e rem l3 hety hparse hpos
    obtain ⟨dm, sm, ety, vl, pl⟩ := e
    simp only at hety hparse
    subst hety
    simp only [Layer2FlowInfo.tryFrom, hparse]
    rw [if_neg]
    simp only [List.isEmpty_eq_true]
    exact List.ne_nil_of_length_pos hpos
  · intro e rem l3 hety hparse hpos
    obtain ⟨dm, sm, ety, vl, pl⟩ := e
    simp only at hety hparse
    subst hety
    simp only [Layer2FlowInfo.tryFrom, hparse]
    rw [if_neg]
    simp only [List.isEmpty_eq_true]
    exact List.ne_nil_of_length_pos hpos
  · intro v rem l4 hproto hparse hpos
    obtain ⟨di, si, proto, pl⟩ := v
    simp only at hproto hparse
    subst hproto
    simp only [Layer3FlowInfo.tryFrom, hparse]
    rw [if_neg]
    simp only [List.isEmpty_eq_true]
    exact List.ne_nil_of_length_pos hpos
  · intro v rem l4 hproto hparse hpos
    obtain ⟨di, si, proto, pl⟩ := v
    simp only at hproto hparse
    subst hproto
    simp only [Layer3FlowInfo.tryFrom, hparse]
    rw [if_neg]
    simp only [List.isEmpty_eq_true]
    exact List.ne_nil_of_length_pos hpos

/-- Witness for claim C2, instantiating the first conjunct on the
concrete Ethernet value c2w_eth whose IPv6 payload leaves one byte. -/
theorem claim_C2_witness :
    c2w_eth.ether_type = EthernetTypeId.L3 Layer3Id.IPv6
      ∧ IPv6.parse c2w_eth.payload = Except.ok ([0], c2w_v)
      ∧ Layer2FlowInfo.tryFrom c2w_eth = Except.error (ErrorKind.IncompleteParse 1) :=
  ⟨rfl, rfl, claim_C2.1 c2w_eth [0] c2w_v rfl rfl (by decide)⟩

/-- Claim C3: the record loop of parse_records appends records while the
record parser succeeds; an Incomplete result stops the loop gracefully
and returns the records decoded so far with no error; any non-Incomplete
error aborts the loop and is returned; and for every input and
endianness, parse_records with the (spec-modelled) record parser
terminates successfully with the tail reporting Incomplete. -/
theorem claim_C3 (parse : List Nat → IResult PcapRecord)
    (hp : ∀ i rem r, parse i = Except.ok (rem, r) → rem.length < i.length) :
    (∀ (current : List Nat) (records : List PcapRecord) (rem : List Nat) (r : PcapRecord),
      parse current = Except.ok (rem, r) →
      parse_records_loop parse hp current records
        = parse_records_loop parse hp rem (records ++ [r]))
    ∧ (∀ (current : List Nat) (records : List PcapRecord) (needed : Needed),
      parse current = Except.error (NomErr.incomplete needed) →
      parse_records_loop parse hp current records = Except.ok (current, records))
    ∧ (∀ (current : List Nat) (records : List PcapRecord) (err : NomErr),
      parse current = Except.error err → (∀ needed, err ≠ NomErr.incomplete needed) →
      parse_records_loop parse hp current records = Except.error err)
    ∧ (∀ (input : List Nat) (endianness : Endianness),
      ∃ rem recs, CaptureParser.parse_records input endianness = Except.ok (rem, recs)
        ∧ ∃ needed, PcapRecord.parse rem endianness
            = Except.error (NomErr.incomplete needed)) := by
  refine ⟨loop_ok parse hp, loop_incomplete parse hp, loop_abort parse hp, ?_⟩
  intro input endianness
  simp only [CaptureParser.parse_records]
  exact loop_total endianness input.length _ input le_rfl []

/-- Witness for claim C3, instantiating it with the spec-modelled record
parser (big-endian) and using the graceful-stop conjunct at the empty
input, where the record parser reports Incomplete. -/
theorem claim_C3_witness :
    parse_records_loop (fun i => PcapRecord.parse i Endianness.Big)
      (pcap_parse_consumes Endianness.Big) [] [] = Except.ok ([], []) :=
  (claim_C3 (fun i => PcapRecord.parse i Endianness.Big)
    (pcap_parse_consumes Endianness.Big)).2.1 [] [] (Needed.size 4) rfl

/-- Counterexample to claim C4: on the concrete frame c4_frame, whose
terminal type bytes 0x9999 are above 1500 and neither a VLAN TPID nor a
recognised L3 EtherType, Ethernet::parse does not succeed with an
Unknown terminal type — it fails with a parse error (and the
EthernetTypeId enum has no Unknown variant at all). -/
theorem claim_C4_counterexample :
    Ethernet.parse c4_frame = Except.error NomErr.error := rfl

/-- Claim C4 as amended: for every 2-byte terminal type value greater
than 1500 that is neither a VLAN TPID (0x8100/0x88a8) nor a recognised
L3 EtherType (0x0800, 0x86dd, 0x0806, 0x88cc), EthernetTypeId::new
returns None (after logging at debug level) and Ethernet::parse on a
frame carrying that terminal type therefore fails with a parse error. -/
theorem claim_C4 (hi lo : Nat)
    (h1500 : 1500 < 256 * hi + lo)
    (hv1 : 256 * hi + lo ≠ 0x8100) (hv2 : 256 * hi + lo ≠ 0x88a8)
    (hv3 : 256 * hi + lo ≠ 0x88cc) (hv4 : 256 * hi + lo ≠ 0x0800)
    (hv5 : 256 * hi + lo ≠ 0x86dd) (hv6 : 256 * hi + lo ≠ 0x0806) :
    EthernetTypeId.new (256 * hi + lo) = none
      ∧ ∀ (dst src payload : List Nat), dst.length = 6 → src.length = 6 →
          Ethernet.parse (dst ++ (src ++ (hi :: lo :: payload)))
            = Except.error NomErr.error := by
  have hnone : EthernetTypeId.new (256 * hi + lo) = none := by
    simp only [EthernetTypeId.new,
      if_neg hv1, if_neg hv2, if_neg hv3, if_neg hv4, if_neg hv5, if_neg hv6]
    rw [if_neg]
    omega
  refine ⟨hnone, ?_⟩
  intro dst src payload hd hs
  rw [ethernet_parse_mac_split dst src _ hd hs]
  simp only [Ethernet.parse_vlan_tag, hnone]

/-- Witness for claim C4 at the concrete type value 0xABCD with concrete
MACs and payload. -/
theorem claim_C4_witness :
    (1500 < 256 * 0xAB + 0xCD ∧ 256 * 0xAB + 0xCD ≠ 0x8100
      ∧ 256 * 0xAB + 0xCD ≠ 0x88a8 ∧ 256 * 0xAB + 0xCD ≠ 0x88cc
      ∧ 256 * 0xAB + 0xCD ≠ 0x0800 ∧ 256 * 0xAB + 0xCD ≠ 0x86dd
      ∧ 256 * 0xAB + 0xCD ≠ 0x0806)
    ∧ Ethernet.parse ([10, 20, 30, 40, 50, 60] ++ ([1, 2, 3, 4, 5, 6] ++ (0xAB :: 0xCD :: [9])))
        = Except.error NomErr.error :=
  ⟨by decide,
   (claim_C4 0xAB 0xCD (by decide) (by decide) (by decide) (by decide) (by decide)
      (by decide) (by decide)).2 [10, 20, 30, 40, 50, 60] [1, 2, 3, 4, 5, 6] [9] rfl rfl⟩

/-- Claim C5, evaluation of the code at the failing input: the frame
c5_frame carries one VLAN tag whose stored 4-byte value is [0, 5, 0, 0],
so the TCI bytes 0-1 encode VID 5; parsing produces exactly that one tag,
but the vlan accessor returns 0 (the transmute of bytes 2-3 of the
stored value), not the VID 5 required by the claim. -/
theorem claim_C5 :
    Ethernet.parse c5_frame = Except.ok ([], c5_eth)
      ∧ c5_eth.vlans = [{ vlan_type := VlanTypeId.VlanTagId, value := [0, 5, 0, 0] }]
      ∧ Ethernet.vlan c5_eth = 0
      ∧ Ethernet.vlan c5_eth ≠ 5 := by
  refine ⟨rfl, rfl, rfl, by decide⟩

/-- Claim C6: flow projection produces a flow only for IPv4/IPv6 frames
with TCP/UDP inside — every Ethernet value whose terminal EtherType is
not IPv4 and not IPv6 is rejected by TryFrom Ethernet with the
unsupported-EtherType error, and every IPv6 value whose terminal
protocol is neither TCP nor UDP is rejected by TryFrom IPv6 with the
unsupported-protocol error. -/
theorem claim_C6 :
    (∀ e : Ethernet, e.ether_type ≠ EthernetTypeId.L3 Layer3Id.IPv4 →
      e.ether_type ≠ EthernetTypeId.L3 Layer3Id.IPv6 →
      Layer2FlowInfo.tryFrom e = Except.error (ErrorKind.EthernetType e.ether_type))
    ∧ (∀ v : IPv6, v.protocol ≠ InternetProtocolId.Tcp →
      v.protocol ≠ InternetProtocolId.Udp →
      Layer3FlowInfo.tryFrom v = Except.error (ErrorKind.IPv4Type v.protocol)) := by
  constructor
  · intro e h4 h6
    obtain ⟨dm, sm, ety, vl, pl⟩ := e
    simp only at h4 h6 ⊢
    match ety with
    | EthernetTypeId.PayloadLength n => rfl
    | EthernetTypeId.Vlan vt => rfl
    | EthernetTypeId.L3 Layer3Id.Lldp => rfl
    | EthernetTypeId.L3 Layer3Id.Arp => rfl
    | EthernetTypeId.L3 Layer3Id.IPv4 => exact absurd rfl h4
    | EthernetTypeId.L3 Layer3Id.IPv6 => exact absurd rfl h6
  · intro v ht hu
    obtain ⟨di, si, proto, pl⟩ := v
    simp only at ht hu ⊢
    match proto with
    | InternetProtocolId.Tcp => exact absurd rfl ht
    | InternetProtocolId.Udp => exact absurd rfl hu
    | InternetProtocolId.HopByHop => rfl
    | InternetProtocolId.Routing => rfl
    | InternetProtocolId.Fragment => rfl
    | InternetProtocolId.DestinationOptions => rfl
    | InternetProtocolId.AuthenticationHeader => rfl
    | InternetProtocolId.EncapsulatingSecurityPayload => rfl
    | InternetProtocolId.Mobility => rfl

/-- Witness for claim C6 at an ARP-terminated Ethernet value and a
Hop-by-Hop-terminated IPv6 value. -/
theorem claim_C6_witness :
    Layer2FlowInfo.tryFrom c6w_eth
        = Except.error (ErrorKind.EthernetType (EthernetTypeId.L3 Layer3Id.Arp))
      ∧ Layer3FlowInfo.tryFrom c6w_v
        = Except.error (ErrorKind.IPv4Type InternetProtocolId.HopByHop) :=
  ⟨claim_C6.1 c6w_eth (by decide) (by decide), claim_C6.2 c6w_v (by decide) (by decide)⟩

/-- Claim C7: IPv6::parse accepts only buffers where the high nibble of
the first byte is 6; on every input whose version nibble differs from 6
it returns an error and decodes nothing. -/
theorem claim_C7 (input : List Nat) (hv : input.getD 0 0 / 16 ≠ 6) :
    ∃ err, IPv6.parse input = Except.error err := by
  cases input with
  | nil => exact ⟨NomErr.incomplete (Needed.size 1), rfl⟩
  | cons b r =>
    refine ⟨NomErr.error, ?_⟩
    simp only [List.getD_cons_zero] at hv
    simp only [IPv6.parse, be_u8]
    rw [if_neg hv]

/-- Witness for claim C7 at the one-byte buffer [0x45] (version nibble 4). -/
theorem claim_C7_witness :
    ([0x45].getD 0 0 / 16 ≠ 6) ∧ ∃ err, IPv6.parse [0x45] = Except.error err :=
  ⟨by decide, claim_C7 [0x45] (by decide)⟩

/-- Claim C8: whenever Ethernet::parse succeeds, the returned remaining
slice is empty and the payload of the returned Ethernet value is exactly
all bytes after the terminal EtherType: the input minus the 12 MAC
bytes, 6 bytes per parsed VLAN tag and the 2 terminal type bytes. -/
theorem claim_C8 (input rem : List Nat) (e : Ethernet)
    (h : Ethernet.parse input = Except.ok (rem, e)) :
    rem = [] ∧ e.payload = input.drop (14 + 6 * e.vlans.length) := by
  simp only [Ethernet.parse] at h
  rcases heq1 : take 6 input with e1 | ⟨rem1, dm⟩ <;> simp only [heq1] at h
  · exact Except.noConfusion h
  · rcases heq2 : take 6 rem1 with e2 | ⟨rem2, sm⟩ <;> simp only [heq2] at h
    · exact Except.noConfusion h
    · obtain ⟨hrem, hle, hpl⟩ := parse_vlan_tag_ok rem2.length rem2 le_rfl dm sm [] rem e h
      obtain ⟨h1, _, _⟩ := take_ok heq2
      obtain ⟨h2, _, _⟩ := take_ok heq1
      subst h1 h2
      refine ⟨hrem, ?_⟩
      rw [hpl, List.drop_drop, List.drop_drop]
      congr 1
      simp only [List.length_nil]
      omega

/-- Witness for claim C8 at the one-VLAN ARP frame c8w_frame: the payload
starts 20 = 14 + 6 bytes into the frame. -/
theorem claim_C8_witness :
    Ethernet.parse c8w_frame = Except.ok ([], c8w_eth)
      ∧ c8w_eth.payload = c8w_frame.drop (14 + 6 * c8w_eth.vlans.length) :=
  ⟨rfl, (claim_C8 c8w_frame [] c8w_eth rfl).2⟩

/-- Claim C9: the concrete 18-byte Ethernet II frame of scenario S2
parses with terminal type PayloadLength 4, an empty VLAN list and the
payload bytes 01 02 03 04, consuming the whole input. -/
theorem claim_C9 :
    Ethernet.parse c9_frame
      = Except.ok ([], { dst_mac := [1, 2, 3, 4, 5, 6],
                         src_mac := [255, 254, 253, 252, 251, 250],
                         ether_type := EthernetTypeId.PayloadLength 4,
                         vlans := [], payload := [1, 2, 3, 4] }) := rfl

/-- Claim C10: whenever IPv6::parse succeeds, the length of the returned
payload equals the 16-bit big-endian payload-length field at offset 4 of
the input, whatever the chain walk consumed. -/
theorem claim_C10 (input rem : List Nat) (v : IPv6)
    (h : IPv6.parse input = Except.ok (rem, v)) :
    v.payload.length = 256 * input.getD 4 0 + input.getD 5 0 := by
  cases input with
  | nil => exact Except.noConfusion h
  | cons b r1 =>
    simp only [IPv6.parse, be_u8] at h
    split at h
    · simp only [IPv6.parse_ipv6] at h
      split at h
      · exact Except.noConfusion h
      · rename_i r2 t3 heq3
        split at h
        · exact Except.noConfusion h
        · rename_i r3 p heqp
          split at h
          · exact Except.noConfusion h
          · rename_i r4 nb heqb
            split at h
            · rename_i nh hnew
              have hlen := parse_next_header_payload_length r4 p nh rem v h
              obtain ⟨hval, hr3⟩ := be_u16_ok heqp
              obtain ⟨hr2, _, _⟩ := take_ok heq3
              subst hr2
              rw [hlen, hval]
              rw [getD_drop r1 3 0 0, getD_drop r1 3 1 0]
              simp [List.getD_cons_succ]
            · exact Except.noConfusion h
    · exact Except.noConfusion h

/-- Witness for claim C10 at the 40-byte packet c10_input whose payload
length field is 0. -/
theorem claim_C10_witness :
    IPv6.parse c10_input = Except.ok ([], c10_value)
      ∧ c10_value.payload.length = 256 * c10_input.getD 4 0 + c10_input.getD 5 0 :=
  ⟨rfl, claim_C10 c10_input [] c10_value rfl⟩

end NetParser
